import Mathlib

/-!
Shallow embedding of the `internal/todo` package of the ToDoApp repository
(a Go HATEOAS todo-list API) together with proofs about its data model,
in-memory store, link builders, and request handlers.

Go machine integers (`int`) are modelled as `Int`.  Where 64-bit
overflow is reachable it is modelled explicitly: `Atoi` carries Go's
int64 range check, and the slice arithmetic of `GetTodos` uses `wrap64`
(int64 wraparound), since a large parseable `page` query value makes
`start = (page-1)*per_page` wrap negative and the handler panic.  Ids
and counters stay far below 2^63 in every reachable state (they grow by
one per create), so the store operations need no wrapping.  The Go map
`map[int]*Todo` is modelled as an association list together with the
lookup/insert/remove operations the store performs; `time.Now()` is
modelled by threading an explicit `now : Nat` timestamp into `Create`.
The `sync.RWMutex` field only serialises access and has no sequential
behaviour, so it is dropped.
-/

/-- `Link` mirrors the Go struct `Link` (todo.go): a target URL and an
HTTP method hint (empty string models the absent `method` field). -/
structure Link where
  Href : String
  Method : String := ""
  deriving Repr, DecidableEq

/-- `Links` mirrors the Go struct `Links` (todo.go): each field is a
`*Link` pointer, `none` modelling `nil`. -/
structure Links where
  Self : Option Link := none
  Update : Option Link := none
  Delete : Option Link := none
  Complete : Option Link := none
  Todos : Option Link := none
  deriving Repr, DecidableEq

/-- `Todo` mirrors the Go struct `Todo` (todo.go).  `CreatedAt` is the
`time.Time` timestamp, modelled as a `Nat`. -/
structure Todo where
  ID : Int
  Title : String
  Description : String
  Completed : Bool
  CreatedAt : Nat
  Links : Links := {}
  deriving Repr, DecidableEq

/-- `TodoInput` mirrors the Go struct `TodoInput` (todo.go). -/
structure TodoInput where
  Title : String
  Description : String
  deriving Repr, DecidableEq

/-- `CollectionMeta` mirrors the Go struct `CollectionMeta` (todo.go). -/
structure CollectionMeta where
  Total : Int
  Count : Int
  Page : Int
  PerPage : Int
  TotalPages : Int
  deriving Repr, DecidableEq

/-- `CollectionLinks` mirrors the Go struct `CollectionLinks` (todo.go). -/
structure CollectionLinks where
  Self : Option Link := none
  First : Option Link := none
  Last : Option Link := none
  Next : Option Link := none
  Prev : Option Link := none
  Create : Option Link := none
  deriving Repr, DecidableEq

/-- `TodoCollection` mirrors the Go struct `TodoCollection` (todo.go). -/
structure TodoCollection where
  Todos : List Todo
  Meta : CollectionMeta
  Links : CollectionLinks
  deriving Repr, DecidableEq

/-- `ErrorResponse` mirrors the Go struct `ErrorResponse` (todo.go). -/
structure ErrorResponse where
  Error : String
  Message : String
  Links : Links
  deriving Repr, DecidableEq

/-- The Go map `map[int]*Todo` modelled as an association list. -/
abbrev TodoMap := List (Int × Todo)

/-- Lookup in the modelled map, as `todo, exists := s.todos[id]` does. -/
def TodoMap.lookup : TodoMap → Int → Option Todo
  | [], _ => none
  | p :: m, id => if p.1 = id then some p.2 else TodoMap.lookup m id

/-- Assignment `s.todos[id] = todo` in the modelled map: the new binding
replaces any existing binding for the same key. -/
def TodoMap.insert (m : TodoMap) (id : Int) (t : Todo) : TodoMap :=
  (id, t) :: m.filter (fun p => p.1 ≠ id)

/-- `delete(s.todos, id)` in the modelled map. -/
def TodoMap.remove (m : TodoMap) (id : Int) : TodoMap :=
  m.filter (fun p => p.1 ≠ id)

/-- `TodoStore` mirrors the Go struct `TodoStore` (todo.go) minus the
mutex: the record map and the auto-increment counter. -/
structure TodoStore where
  todos : TodoMap
  nextID : Int
  deriving Repr, DecidableEq

/-- `NewTodoStore` (todo.go): empty map, counter starts at 1. -/
def NewTodoStore : TodoStore :=
  { todos := [], nextID := 1 }

/-- `GetAll` (todo.go): the values of the record map.  Go iterates the
map in unspecified order; the model fixes the list order of the
association list as the observation order. -/
def TodoStore.GetAll (s : TodoStore) : List Todo :=
  s.todos.map Prod.snd

/-- `GetByID` (todo.go): map lookup; `none` models `exists = false`. -/
def TodoStore.GetByID (s : TodoStore) (id : Int) : Option Todo :=
  s.todos.lookup id

/-- `Create` (todo.go): builds the record with the current counter as
id, `Completed = false`, `CreatedAt = now`, stores it under that id and
increments the counter; returns the new record and the new store. -/
def TodoStore.Create (s : TodoStore) (input : TodoInput) (now : Nat) :
    Todo × TodoStore :=
  let todo : Todo :=
    { ID := s.nextID, Title := input.Title, Description := input.Description,
      Completed := false, CreatedAt := now }
  (todo, { todos := s.todos.insert s.nextID todo, nextID := s.nextID + 1 })

/-- `Update` (todo.go): if the id is absent, return `(none, s)` with no
mutation; otherwise overwrite title and description of the stored record
in place and return the updated record. -/
def TodoStore.Update (s : TodoStore) (id : Int) (input : TodoInput) :
    Option Todo × TodoStore :=
  match s.todos.lookup id with
  | none => (none, s)
  | some todo =>
      let todo' :=
        { todo with Title := input.Title, Description := input.Description }
      (some todo',
        { s with todos :=
            s.todos.map (fun p =>
              if p.1 = id then
                (p.1, { p.2 with Title := input.Title,
                                 Description := input.Description })
              else p) })

/-- `Complete` (todo.go): if the id is absent, return `(none, s)`;
otherwise set `Completed = true` on the stored record in place and
return it. -/
def TodoStore.Complete (s : TodoStore) (id : Int) :
    Option Todo × TodoStore :=
  match s.todos.lookup id with
  | none => (none, s)
  | some todo =>
      (some { todo with Completed := true },
        { s with todos :=
            s.todos.map (fun p =>
              if p.1 = id then (p.1, { p.2 with Completed := true }) else p) })

/-- `Delete` (todo.go): remove the binding if present; the `Bool` is the
`found` result. -/
def TodoStore.Delete (s : TodoStore) (id : Int) : Bool × TodoStore :=
  match s.todos.lookup id with
  | none => (false, s)
  | some _ => (true, { s with todos := s.todos.remove id })

/-- `buildTodoLinks` (todo.go): self/update/delete/todos always, and a
complete link exactly when the record is not completed. -/
def buildTodoLinks (todo : Todo) (baseURL : String) : Links :=
  let links : Links :=
    { Self := some ⟨baseURL ++ "/todos/" ++ toString todo.ID, "GET"⟩,
      Update := some ⟨baseURL ++ "/todos/" ++ toString todo.ID, "PUT"⟩,
      Delete := some ⟨baseURL ++ "/todos/" ++ toString todo.ID, "DELETE"⟩,
      Todos := some ⟨baseURL ++ "/todos", "GET"⟩ }
  if !todo.Completed then
    { links with Complete := some ⟨baseURL ++ "/todos/" ++ toString todo.ID ++ "/complete", "PATCH"⟩ }
  else links

/-- The `totalPages` computation of `buildCollectionLinks` (todo.go):
`1` when `total = 0`, otherwise `(total + perPage - 1) / perPage` with
Go's truncating integer division. -/
def collectionTotalPages (total perPage : Int) : Int :=
  if total > 0 then Int.tdiv (total + perPage - 1) perPage else 1

/-- `buildCollectionLinks` (todo.go): self/first/create always; last
only when there is more than one page; next only below the last page;
prev only above the first. -/
def buildCollectionLinks (baseURL : String) (page perPage total : Int) :
    CollectionLinks :=
  let totalPages := collectionTotalPages total perPage
  let links : CollectionLinks :=
    { Self := some ⟨baseURL ++ "/todos?page=" ++ toString page ++ "&per_page=" ++ toString perPage, ""⟩,
      First := some ⟨baseURL ++ "/todos?page=1&per_page=" ++ toString perPage, ""⟩,
      Create := some ⟨baseURL ++ "/todos", "POST"⟩,
      Last := none, Next := none, Prev := none }
  let links := if totalPages > 1 then
      { links with Last := some ⟨baseURL ++ "/todos?page=" ++ toString totalPages ++ "&per_page=" ++ toString perPage, ""⟩ }
    else links
  let links := if page < totalPages then
      { links with Next := some ⟨baseURL ++ "/todos?page=" ++ toString (page + 1) ++ "&per_page=" ++ toString perPage, ""⟩ }
    else links
  if page > 1 then
    { links with Prev := some ⟨baseURL ++ "/todos?page=" ++ toString (page - 1) ++ "&per_page=" ++ toString perPage, ""⟩ }
  else links

/-- `buildErrorLinks` (todo.go): only the back-to-collection link. -/
def buildErrorLinks (baseURL : String) : Links :=
  { Todos := some { Href := baseURL ++ "/todos", Method := "GET" } }

/-- Decimal digit-string parser underlying `strconv.Atoi`: `none` on an
empty digit list or any non-digit character. -/
def digitsToNat (l : List Char) : Option Nat :=
  if l.isEmpty then none
  else
    l.foldl
      (fun acc c =>
        acc.bind (fun n => if c.isDigit then some (n * 10 + (c.toNat - 48)) else none))
      (some 0)

/-- `strconv.Atoi` as used by the handlers: optional sign, at least one
digit, nothing else, and the value must fit in a 64-bit `int` (Go
returns an error otherwise, which the handlers treat the same as any
parse failure). -/
def Atoi (s : String) : Option Int :=
  match s.data with
  | [] => none
  | '+' :: rest =>
      (digitsToNat rest).bind
        (fun n => if (n : Int) ≤ 2 ^ 63 - 1 then some (n : Int) else none)
  | '-' :: rest =>
      (digitsToNat rest).bind
        (fun n => if (n : Int) ≤ 2 ^ 63 then some (-(n : Int)) else none)
  | l =>
      (digitsToNat l).bind
        (fun n => if (n : Int) ≤ 2 ^ 63 - 1 then some (n : Int) else none)

/-- `ListTodos` (service.go): delegates to `GetAll`. -/
def Service.ListTodos (store : TodoStore) : List Todo :=
  store.GetAll

/-- `GetTodo` (service.go): delegates to `GetByID`. -/
def Service.GetTodo (store : TodoStore) (id : Int) : Option Todo :=
  store.GetByID id

/-- `CreateTodo` (service.go): delegates to `Create`. -/
def Service.CreateTodo (store : TodoStore) (input : TodoInput) (now : Nat) :
    Todo × TodoStore :=
  store.Create input now

/-- `UpdateTodo` (service.go): delegates to `Update`. -/
def Service.UpdateTodo (store : TodoStore) (id : Int) (input : TodoInput) :
    Option Todo × TodoStore :=
  store.Update id input

/-- `CompleteTodo` (service.go): delegates to `Complete`. -/
def Service.CompleteTodo (store : TodoStore) (id : Int) :
    Option Todo × TodoStore :=
  store.Complete id

/-- `DeleteTodo` (service.go): delegates to `Delete`. -/
def Service.DeleteTodo (store : TodoStore) (id : Int) : Bool × TodoStore :=
  store.Delete id

/-- Outcome of one handler call: a JSON todo body, a 204 empty body, or
a structured error body, each with its HTTP status code. -/
inductive HandlerResult where
  | ok (status : Nat) (todo : Todo)
  | noContent (status : Nat)
  | err (status : Nat) (body : ErrorResponse)
  deriving Repr, DecidableEq

/-- `sendError` (todo.go): a structured error body that always carries
`buildErrorLinks`. -/
def TodoAPI.sendError (baseURL : String) (statusCode : Nat)
    (error message : String) : HandlerResult :=
  .err statusCode { Error := error, Message := message, Links := buildErrorLinks baseURL }

/-- The `page` parsing policy of `GetTodos` (todo.go): the parsed value
when it parses positive, 1 otherwise. -/
def effectivePage (pageStr : String) : Int :=
  match Atoi pageStr with
  | some p => if p > 0 then p else 1
  | none => 1

/-- The `per_page` parsing policy of `GetTodos` (todo.go): the parsed
value when it parses and lies in [1,100], 10 otherwise. -/
def effectivePerPage (perPageStr : String) : Int :=
  match Atoi perPageStr with
  | some pp => if pp > 0 ∧ pp ≤ 100 then pp else 10
  | none => 10

/-- Go 64-bit `int` wraparound: reduce an unbounded integer to the
representative in `[-2^63, 2^63)`. -/
def wrap64 (n : Int) : Int :=
  (n + 2 ^ 63) % 2 ^ 64 - 2 ^ 63

/-- `GetTodos` (todo.go): parse `page` and `per_page`, slice the record
list with `[start, end)` bounds clamped from above, attach per-todo
links, and answer 200 with metadata and collection links.  The `start`
and `end` arithmetic is Go `int` (64-bit) arithmetic, so it wraps: a
large parseable `page` makes `start` negative, the copy loop is entered
with a negative index and `allTodos[i]` panics — modelled as `none`
(the transport's Recoverer turns the panic into a 500). -/
def TodoAPI.GetTodos (baseURL : String) (s : TodoStore)
    (pageStr perPageStr : String) : Option (Nat × TodoCollection) :=
  let page : Int := effectivePage pageStr
  let perPage : Int := effectivePerPage perPageStr
  let allTodos := Service.ListTodos s
  let total : Int := allTodos.length
  let start := wrap64 ((page - 1) * perPage)
  let stop := wrap64 (start + perPage)
  let start := if start ≥ total then total else start
  let stop := if stop > total then total else stop
  let paginatedTodos : Option (List Todo) :=
    if start < total then
      if start < 0 then none
      else
        some (((allTodos.drop start.toNat).take (stop - start).toNat).map
          (fun todo => { todo with Links := buildTodoLinks todo baseURL }))
    else some []
  match paginatedTodos with
  | none => none
  | some paginatedTodos =>
      let totalPages := Int.tdiv (total + perPage - 1) perPage
      let totalPages := if totalPages = 0 then 1 else totalPages
      some (200,
        { Todos := paginatedTodos,
          Meta :=
            { Total := total, Count := paginatedTodos.length, Page := page,
              PerPage := perPage, TotalPages := totalPages },
          Links := buildCollectionLinks baseURL page perPage total })

/-- `GetTodo` (todo.go): 400 on an unparsable id, 404 on a missing
record, otherwise 200 with the record and its links. -/
def TodoAPI.GetTodo (baseURL : String) (s : TodoStore) (idStr : String) :
    HandlerResult :=
  match Atoi idStr with
  | none => TodoAPI.sendError baseURL 400 "Invalid todo ID" "The provided ID must be a valid integer"
  | some id =>
    match Service.GetTodo s id with
    | none => TodoAPI.sendError baseURL 404 "Todo not found" ("Todo with ID " ++ toString id ++ " does not exist")
    | some todo => .ok 200 { todo with Links := buildTodoLinks todo baseURL }

/-- `UpdateTodo` (todo.go): 400 on an unparsable id, then 400 on an
undecodable body (modelled as `none`), then 400 on an empty title, then
404 on a missing record, otherwise 200 with the updated record. -/
def TodoAPI.UpdateTodo (baseURL : String) (s : TodoStore) (idStr : String)
    (body : Option TodoInput) : HandlerResult × TodoStore :=
  match Atoi idStr with
  | none => (TodoAPI.sendError baseURL 400 "Invalid todo ID" "The provided ID must be a valid integer", s)
  | some id =>
    match body with
    | none => (TodoAPI.sendError baseURL 400 "Invalid JSON" "Request body must be valid JSON", s)
    | some input =>
      if input.Title = "" then
        (TodoAPI.sendError baseURL 400 "Validation error" "Title is required", s)
      else
        match Service.UpdateTodo s id input with
        | (none, s') => (TodoAPI.sendError baseURL 404 "Todo not found" ("Todo with ID " ++ toString id ++ " does not exist"), s')
        | (some todo, s') => (.ok 200 { todo with Links := buildTodoLinks todo baseURL }, s')

/-- `CompleteTodo` (todo.go): 400 on an unparsable id, 404 on a missing
record, otherwise 200 with the completed record. -/
def TodoAPI.CompleteTodo (baseURL : String) (s : TodoStore) (idStr : String) :
    HandlerResult × TodoStore :=
  match Atoi idStr with
  | none => (TodoAPI.sendError baseURL 400 "Invalid todo ID" "The provided ID must be a valid integer", s)
  | some id =>
    match Service.CompleteTodo s id with
    | (none, s') => (TodoAPI.sendError baseURL 404 "Todo not found" ("Todo with ID " ++ toString id ++ " does not exist"), s')
    | (some todo, s') => (.ok 200 { todo with Links := buildTodoLinks todo baseURL }, s')

/-- `DeleteTodo` (todo.go): 400 on an unparsable id, 404 on a missing
record, otherwise 204 with no body. -/
def TodoAPI.DeleteTodo (baseURL : String) (s : TodoStore) (idStr : String) :
    HandlerResult × TodoStore :=
  match Atoi idStr with
  | none => (TodoAPI.sendError baseURL 400 "Invalid todo ID" "The provided ID must be a valid integer", s)
  | some id =>
    match Service.DeleteTodo s id with
    | (false, s') => (TodoAPI.sendError baseURL 404 "Todo not found" ("Todo with ID " ++ toString id ++ " does not exist"), s')
    | (true, s') => (.noContent 204, s')

/-- The store produced by `NewRouter` (todo.go): a fresh store seeded
with three sample todos through the Service facade.  The three
`time.Now()` calls are the explicit timestamps. -/
def NewRouterStore (now1 now2 now3 : Nat) : TodoStore :=
  let store := NewTodoStore
  let store := (Service.CreateTodo store ⟨"Learn Go", "Master the Go programming language"⟩ now1).2
  let store := (Service.CreateTodo store ⟨"Build REST API", "Create a HATEOAS-compliant REST API"⟩ now2).2
  (Service.CreateTodo store ⟨"Write Tests", "Add comprehensive test coverage"⟩ now3).2

/-- One mutating or read-only call on the store, for reasoning about
whole operation sequences (C4). -/
inductive StoreOp where
  | createOp (input : TodoInput) (now : Nat)
  | updateOp (id : Int) (input : TodoInput)
  | completeOp (id : Int)
  | deleteOp (id : Int)
  deriving Repr, DecidableEq

/-- The store state after one operation. -/
def applyOp (s : TodoStore) : StoreOp → TodoStore
  | .createOp input now => (s.Create input now).2
  | .updateOp id input => (s.Update id input).2
  | .completeOp id => (s.Complete id).2
  | .deleteOp id => (s.Delete id).2

/-- The store state after a sequence of operations. -/
def runOps (s : TodoStore) : List StoreOp → TodoStore
  | [] => s
  | op :: ops => runOps (applyOp s op) ops

/-- The ids returned by the `Create` calls of a sequence, in call
order. -/
def createdIds (s : TodoStore) : List StoreOp → List Int
  | [] => []
  | .createOp input now :: ops =>
      (s.Create input now).1.ID :: createdIds (s.Create input now).2 ops
  | .updateOp id input :: ops => createdIds (s.Update id input).2 ops
  | .completeOp id :: ops => createdIds (s.Complete id).2 ops
  | .deleteOp id :: ops => createdIds (s.Delete id).2 ops

/-- The number of `Create` calls in a sequence. -/
def countCreates : List StoreOp → Nat
  | [] => 0
  | .createOp _ _ :: ops => countCreates ops + 1
  | _ :: ops => countCreates ops

/-- `n` consecutive integers starting at `start`. -/
def intRange (start : Int) : Nat → List Int
  | 0 => []
  | n + 1 => start :: intRange (start + 1) n

/-! ### Lemmas about map lookup and in-place modification -/

/-- Looking up the modified key after an in-place modification of all
bindings with that key yields the modified record. -/
theorem TodoMap.lookup_modify_self (m : TodoMap) (id : Int) (f : Todo → Todo) :
    TodoMap.lookup (m.map fun p => if p.1 = id then (p.1, f p.2) else p) id
      = (TodoMap.lookup m id).map f := by
  induction m with
  | nil => rfl
  | cons p m ih =>
    by_cases h : p.1 = id
    · simp [TodoMap.lookup, h]
    · simp [TodoMap.lookup, h, ih]

/-- Looking up any other key after an in-place modification of the
bindings of key `id` is unchanged. -/
theorem TodoMap.lookup_modify_other (m : TodoMap) (id id' : Int)
    (h : id' ≠ id) (f : Todo → Todo) :
    TodoMap.lookup (m.map fun p => if p.1 = id then (p.1, f p.2) else p) id'
      = TodoMap.lookup m id' := by
  induction m with
  | nil => rfl
  | cons p m ih =>
    have h' : id ≠ id' := fun e => h e.symm
    by_cases hp : p.1 = id
    · simp [TodoMap.lookup, hp, h', ih]
    · by_cases hq : p.1 = id'
      · simp [TodoMap.lookup, hp, hq, h]
      · simp [TodoMap.lookup, hp, hq, ih]

/-- Mapping an idempotent function twice is the same as mapping it
once. -/
theorem map_map_of_idem {α : Type} (f : α → α) (hf : ∀ x, f (f x) = f x) :
    ∀ l : List α, (l.map f).map f = l.map f := by
  intro l
  induction l with
  | nil => rfl
  | cons x l ih => simp only [List.map_cons, hf, ih]

/-! ### Claim theorems -/

/-- C9: the Service facade is pure delegation — each Service operation
returns exactly the result and store state of the corresponding Store
operation. -/
theorem C9_service_delegation (store : TodoStore) (id : Int)
    (input : TodoInput) (now : Nat) :
    Service.ListTodos store = store.GetAll ∧
    Service.GetTodo store id = store.GetByID id ∧
    Service.CreateTodo store input now = store.Create input now ∧
    Service.UpdateTodo store id input = store.Update id input ∧
    Service.CompleteTodo store id = store.Complete id ∧
    Service.DeleteTodo store id = store.Delete id :=
  ⟨rfl, rfl, rfl, rfl, rfl, rfl⟩

/-- C8: `Create` followed by `GetByID` on the returned id finds the new
record, whose title and description come from the input and whose
completed flag is false. -/
theorem C8_create_get_roundtrip (s : TodoStore) (input : TodoInput) (now : Nat) :
    (s.Create input now).2.GetByID (s.Create input now).1.ID
        = some (s.Create input now).1 ∧
    (s.Create input now).1.Title = input.Title ∧
    (s.Create input now).1.Description = input.Description ∧
    (s.Create input now).1.Completed = false := by
  refine ⟨?_, rfl, rfl, rfl⟩
  simp [TodoStore.Create, TodoStore.GetByID, TodoMap.insert, TodoMap.lookup]

/-- C5: `Update` on an existing id returns the record with only title
and description replaced, stores exactly that record under the id,
leaves every other id's record and the id counter unchanged; on a
missing id it returns not-found and the whole store state unchanged. -/
theorem C5_update_frame (s : TodoStore) (id : Int) (input : TodoInput) :
    (s.GetByID id = none → s.Update id input = (none, s)) ∧
    (∀ t, s.GetByID id = some t →
      (s.Update id input).1
          = some { t with Title := input.Title, Description := input.Description } ∧
      (s.Update id input).2.GetByID id
          = some { t with Title := input.Title, Description := input.Description } ∧
      (∀ id', id' ≠ id → (s.Update id input).2.GetByID id' = s.GetByID id') ∧
      (s.Update id input).2.nextID = s.nextID) := by
  constructor
  · intro h
    rw [TodoStore.GetByID] at h
    simp [TodoStore.Update, h]
  · intro t ht
    rw [TodoStore.GetByID] at ht
    refine ⟨?_, ?_, ?_, ?_⟩
    · simp [TodoStore.Update, ht]
    · have hm := TodoMap.lookup_modify_self s.todos id
        (fun td => { td with Title := input.Title, Description := input.Description })
      simp [TodoStore.Update, TodoStore.GetByID, ht, hm]
    · intro id' hid
      have hm := TodoMap.lookup_modify_other s.todos id id' hid
        (fun td => { td with Title := input.Title, Description := input.Description })
      simp [TodoStore.Update, TodoStore.GetByID, ht, hm]
    · simp [TodoStore.Update, ht]

/-- C5 witness: the theorem applied to a one-record store. -/
theorem C5_update_frame_witness :
    let s : TodoStore := ⟨[(1, ⟨1, "a", "b", false, 0, {}⟩)], 2⟩
    (s.Update 1 ⟨"t", "d"⟩).1 = some ⟨1, "t", "d", false, 0, {}⟩ := by
  exact ((C5_update_frame ⟨[(1, ⟨1, "a", "b", false, 0, {}⟩)], 2⟩ 1 ⟨"t", "d"⟩).2
    ⟨1, "a", "b", false, 0, {}⟩ rfl).1

/-- C7: `Complete` is idempotent on a present id — found both times,
completed both times, the same record returned, and the second call
leaves the store state exactly as the first left it. -/
theorem C7_complete_idempotent (s : TodoStore) (id : Int) (t : Todo)
    (h : s.GetByID id = some t) :
    (s.Complete id).1 = some { t with Completed := true } ∧
    ((s.Complete id).2.Complete id).1 = some { t with Completed := true } ∧
    ((s.Complete id).2.Complete id).2 = (s.Complete id).2 := by
  rw [TodoStore.GetByID] at h
  have hmod := TodoMap.lookup_modify_self s.todos id (fun td => { td with Completed := true })
  have hidem : ∀ p : Int × Todo,
      (fun p => if p.1 = id then (p.1, { p.2 with Completed := true }) else p)
        ((fun p => if p.1 = id then (p.1, { p.2 with Completed := true }) else p) p)
      = (fun p => if p.1 = id then (p.1, { p.2 with Completed := true }) else p) p := by
    intro p
    by_cases hp : p.1 = id <;> simp [hp]
  refine ⟨?_, ?_, ?_⟩
  · simp [TodoStore.Complete, h]
  · simp [TodoStore.Complete, h, hmod]
  · have hmm := map_map_of_idem
      (fun p : Int × Todo => if p.1 = id then (p.1, { p.2 with Completed := true }) else p)
      hidem s.todos
    simp [TodoStore.Complete, h, hmod, hmm]

/-- C7 witness: the theorem applied to a one-record store. -/
theorem C7_complete_idempotent_witness :
    let s : TodoStore := ⟨[(1, ⟨1, "a", "b", false, 0, {}⟩)], 2⟩
    ((s.Complete 1).2.Complete 1).2 = (s.Complete 1).2 := by
  exact (C7_complete_idempotent ⟨[(1, ⟨1, "a", "b", false, 0, {}⟩)], 2⟩ 1
    ⟨1, "a", "b", false, 0, {}⟩ rfl).2.2

/-- C1: for every todo and base URL the resource link set contains self
(GET), update (PUT), delete (DELETE) and back-to-collection todos (GET),
and a complete (PATCH) link exactly when the todo is not completed; a
freshly created todo's links contain a complete link, and a todo
returned by `Complete` has links without one. -/
theorem C1_resource_links (baseURL : String) :
    (∀ todo : Todo,
      (buildTodoLinks todo baseURL).Self
          = some ⟨baseURL ++ "/todos/" ++ toString todo.ID, "GET"⟩ ∧
      (buildTodoLinks todo baseURL).Update
          = some ⟨baseURL ++ "/todos/" ++ toString todo.ID, "PUT"⟩ ∧
      (buildTodoLinks todo baseURL).Delete
          = some ⟨baseURL ++ "/todos/" ++ toString todo.ID, "DELETE"⟩ ∧
      (buildTodoLinks todo baseURL).Todos = some ⟨baseURL ++ "/todos", "GET"⟩ ∧
      ((buildTodoLinks todo baseURL).Complete.isSome ↔ todo.Completed = false)) ∧
    (∀ (s : TodoStore) (input : TodoInput) (now : Nat),
      ((buildTodoLinks (s.Create input now).1 baseURL).Complete).isSome) ∧
    (∀ (s : TodoStore) (id : Int) (t : Todo),
      (s.Complete id).1 = some t → (buildTodoLinks t baseURL).Complete = none) := by
  refine ⟨?_, ?_, ?_⟩
  · intro todo
    cases hc : todo.Completed <;> simp [buildTodoLinks, hc]
  · intro s input now
    simp [buildTodoLinks, TodoStore.Create]
  · intro s id t ht
    cases hl : s.todos.lookup id with
    | none => simp [TodoStore.Complete, hl] at ht
    | some u =>
        simp only [TodoStore.Complete, hl] at ht
        cases ht
        simp [buildTodoLinks]

/-- C1 witness: completing the single seeded record removes its
complete link, while the freshly created record has one. -/
theorem C1_resource_links_witness :
    let s : TodoStore := (NewTodoStore.Create ⟨"a", "b"⟩ 0).2
    ∀ t, (s.Complete 1).1 = some t →
      (buildTodoLinks t "http://localhost:8000").Complete = none := by
  intro s t ht
  exact (C1_resource_links "http://localhost:8000").2.2 s 1 t ht

/-! ### Lemmas about operation sequences (for C4) -/

/-- Only `Create` moves the id counter, and it moves it up by one. -/
theorem nextID_applyOp (s : TodoStore) (op : StoreOp) :
    (applyOp s op).nextID
      = s.nextID + (match op with | .createOp _ _ => 1 | _ => 0) := by
  cases op with
  | createOp input now => rfl
  | updateOp id input =>
      cases h : s.todos.lookup id <;> simp [applyOp, TodoStore.Update, h]
  | completeOp id =>
      cases h : s.todos.lookup id <;> simp [applyOp, TodoStore.Complete, h]
  | deleteOp id =>
      cases h : s.todos.lookup id <;> simp [applyOp, TodoStore.Delete, h]

/-- The ids handed out by the `Create` calls of any sequence are the
consecutive integers starting at the current counter value. -/
theorem createdIds_eq_intRange (ops : List StoreOp) :
    ∀ s : TodoStore, createdIds s ops = intRange s.nextID (countCreates ops) := by
  induction ops with
  | nil => intro s; rfl
  | cons op ops ih =>
    intro s
    cases op with
    | createOp input now =>
        simp only [createdIds, countCreates, intRange, ih]
        rfl
    | updateOp id input =>
        have h := nextID_applyOp s (.updateOp id input)
        simp only [createdIds, countCreates, ih]
        simp only [applyOp] at h
        rw [h]
        simp
    | completeOp id =>
        have h := nextID_applyOp s (.completeOp id)
        simp only [createdIds, countCreates, ih]
        simp only [applyOp] at h
        rw [h]
        simp
    | deleteOp id =>
        have h := nextID_applyOp s (.deleteOp id)
        simp only [createdIds, countCreates, ih]
        simp only [applyOp] at h
        rw [h]
        simp

/-- Every member of `intRange a n` is at least `a`. -/
theorem intRange_le_mem (n : Nat) :
    ∀ (a x : Int), x ∈ intRange a n → a ≤ x := by
  induction n with
  | zero => intro a x hx; simp [intRange] at hx
  | succ n ih =>
      intro a x hx
      simp only [intRange, List.mem_cons] at hx
      rcases hx with rfl | hx
      · exact le_refl x
      · exact le_trans (by omega) (ih (a + 1) x hx)

/-- `intRange` is strictly increasing. -/
theorem intRange_pairwise (n : Nat) :
    ∀ a : Int, List.Pairwise (fun x y => x < y) (intRange a n) := by
  induction n with
  | zero => intro a; simp [intRange]
  | succ n ih =>
      intro a
      simp only [intRange, List.pairwise_cons]
      exact ⟨fun x hx => lt_of_lt_of_le (by omega) (intRange_le_mem n (a + 1) x hx),
        ih (a + 1)⟩

/-- C4: over any sequence of store operations on a fresh store, the ids
assigned by `Create` are exactly `1, 2, ..., N` in creation order (`N`
the number of creates), hence strictly increasing from 1, and no id is
ever assigned twice — deletion never makes an id reusable. -/
theorem C4_ids_monotone_no_reuse (ops : List StoreOp) :
    createdIds NewTodoStore ops = intRange 1 (countCreates ops) ∧
    List.Pairwise (fun x y => x < y) (createdIds NewTodoStore ops) := by
  have h := createdIds_eq_intRange ops NewTodoStore
  refine ⟨h, ?_⟩
  rw [h]
  exact intRange_pairwise (countCreates ops) 1

/-! ### Lemmas about collection pagination arithmetic (for C2) -/

/-- `(total + perPage - 1) / perPage` is the ceiling of
`total / perPage`: the least page count covering all records. -/
theorem tdiv_ceil_char (total perPage : Int) (ht : 0 < total) (hp : 0 < perPage) :
    total ≤ Int.tdiv (total + perPage - 1) perPage * perPage ∧
    (Int.tdiv (total + perPage - 1) perPage - 1) * perPage < total := by
  have ha : (0 : Int) ≤ total + perPage - 1 := by omega
  rw [Int.tdiv_eq_ediv ha (le_of_lt hp)]
  have hmod := Int.ediv_add_emod (total + perPage - 1) perPage
  have hmn := Int.emod_nonneg (total + perPage - 1) (ne_of_gt hp)
  have hml := Int.emod_lt_of_pos (total + perPage - 1) hp
  have hc : (total + perPage - 1) / perPage * perPage
      = perPage * ((total + perPage - 1) / perPage) := mul_comm _ _
  have hs : ((total + perPage - 1) / perPage - 1) * perPage
      = perPage * ((total + perPage - 1) / perPage) - perPage := by ring
  constructor
  · linarith [hmod, hml, hc]
  · linarith [hmod, hmn, hs]

/-- Presence of each collection link as a function of the page
arithmetic. -/
theorem buildCollectionLinks_char (b : String) (page perPage total : Int) :
    ((buildCollectionLinks b page perPage total).Self).isSome ∧
    ((buildCollectionLinks b page perPage total).First).isSome ∧
    ((buildCollectionLinks b page perPage total).Create).isSome ∧
    (((buildCollectionLinks b page perPage total).Last).isSome
        ↔ 1 < collectionTotalPages total perPage) ∧
    (((buildCollectionLinks b page perPage total).Next).isSome
        ↔ page < collectionTotalPages total perPage) ∧
    (((buildCollectionLinks b page perPage total).Prev).isSome ↔ 1 < page) := by
  simp only [buildCollectionLinks]
  split_ifs with h1 h2 h3 <;> simp_all

/-- C2: for every base URL, `page ≥ 1`, `per_page ≥ 1`, `total ≥ 0`,
the collection links always contain self, first and create; last is
present iff there is more than one page; next iff the page is below the
last; prev iff the page is above the first; total pages is the ceiling
of `total / per_page` (floored at one page when `total = 0`); and the
spec's concrete pagination examples hold. -/
theorem C2_collection_links (baseURL : String) (page perPage total : Int)
    (hpage : 1 ≤ page) (hper : 1 ≤ perPage) (htotal : 0 ≤ total) :
    ((buildCollectionLinks baseURL page perPage total).Self).isSome ∧
    ((buildCollectionLinks baseURL page perPage total).First).isSome ∧
    ((buildCollectionLinks baseURL page perPage total).Create).isSome ∧
    (((buildCollectionLinks baseURL page perPage total).Last).isSome
        ↔ 1 < collectionTotalPages total perPage) ∧
    (((buildCollectionLinks baseURL page perPage total).Next).isSome
        ↔ page < collectionTotalPages total perPage) ∧
    (((buildCollectionLinks baseURL page perPage total).Prev).isSome ↔ 1 < page) ∧
    (0 < total →
      total ≤ collectionTotalPages total perPage * perPage ∧
      (collectionTotalPages total perPage - 1) * perPage < total) ∧
    (total = 0 → collectionTotalPages total perPage = 1) ∧
    collectionTotalPages 35 10 = 4 ∧
    ((buildCollectionLinks baseURL 2 10 35).Next).isSome ∧
    ((buildCollectionLinks baseURL 2 10 35).Prev).isSome ∧
    ((buildCollectionLinks baseURL 2 10 35).Last).isSome ∧
    (buildCollectionLinks baseURL 1 10 35).Prev = none ∧
    (buildCollectionLinks baseURL 4 10 35).Next = none := by
  obtain ⟨hs, hf, hc, hl, hn, hp⟩ := buildCollectionLinks_char baseURL page perPage total
  refine ⟨hs, hf, hc, hl, hn, hp, ?_, ?_, ?_, ?_, ?_, ?_, ?_, ?_⟩
  · intro ht
    have := tdiv_ceil_char total perPage ht (by omega)
    simpa [collectionTotalPages, ht] using this
  · intro ht
    simp [collectionTotalPages, ht]
  · decide
  · have h := (buildCollectionLinks_char baseURL 2 10 35).2.2.2.2.1
    rw [h]
    decide
  · have h := (buildCollectionLinks_char baseURL 2 10 35).2.2.2.2.2
    rw [h]
    decide
  · have h := (buildCollectionLinks_char baseURL 2 10 35).2.2.2.1
    rw [h]
    decide
  · have h44 : Int.tdiv 44 10 = 4 := by decide
    simp only [buildCollectionLinks, collectionTotalPages]
    norm_num [h44]
  · have h44 : Int.tdiv 44 10 = 4 := by decide
    simp only [buildCollectionLinks, collectionTotalPages]
    norm_num [h44]

/-- C2 witness: the spec's pagination example, total=35 per_page=10
page=2, with next present. -/
theorem C2_collection_links_witness :
    ((buildCollectionLinks "http://localhost:8000" 2 10 35).Next).isSome := by
  exact (C2_collection_links "http://localhost:8000" 2 10 35 (by norm_num)
    (by norm_num) (by norm_num)).2.2.2.2.2.2.2.2.2.1

/-! ### Spec-side pagination slicing (for C3)

These three definitions follow the spec's slicing-policy wording
(`start=(page-1)*per_page`, `end=start+per_page`, both clamped to
`[0,total]`, slice `[start,end)`) and are compared against the
`GetTodos` handler, which is embedded from the source. -/

/-- The spec's clamped slice start. -/
def specClampedStart (page perPage total : Int) : Int :=
  max 0 (min ((page - 1) * perPage) total)

/-- The spec's clamped slice stop. -/
def specClampedStop (page perPage total : Int) : Int :=
  max 0 (min ((page - 1) * perPage + perPage) total)

/-- The spec's `[start, end)` slice of the stored records, with the
per-resource links attached as the handler serialises them. -/
def specPageSlice (baseURL : String) (l : List Todo) (page perPage : Int) :
    List Todo :=
  ((l.drop (specClampedStart page perPage l.length).toNat).take
      (specClampedStop page perPage l.length
        - specClampedStart page perPage l.length).toNat).map
    (fun todo => { todo with Links := buildTodoLinks todo baseURL })

/-- The effective page is always at least 1. -/
theorem one_le_effectivePage (pageStr : String) : 1 ≤ effectivePage pageStr := by
  unfold effectivePage
  cases h : Atoi pageStr with
  | none => exact le_refl 1
  | some p =>
      by_cases hp : p > 0
      · simp [hp]
        omega
      · simp [hp]

/-- The effective per-page is always at least 1. -/
theorem one_le_effectivePerPage (perPageStr : String) :
    1 ≤ effectivePerPage perPageStr := by
  unfold effectivePerPage
  cases h : Atoi perPageStr with
  | none => decide
  | some pp =>
      by_cases hpp : pp > 0 ∧ pp ≤ 100
      · simp [hpp]
        omega
      · simp [hpp]

/-- `wrap64` is the identity on values already in the int64 range. -/
theorem wrap64_eq_self (x : Int) (h0 : -(2 ^ 63) ≤ x) (h1 : x < 2 ^ 63) :
    wrap64 x = x := by
  unfold wrap64
  omega

/-- As long as the slice arithmetic does not overflow int64, `GetTodos`
answers 200 with exactly the spec's clamped `[start, end)` slice of the
stored records, the effective page and per-page, the total, the slice
length as count, and the collection links. -/
theorem GetTodos_eq_of_no_overflow (baseURL pageStr perPageStr : String)
    (s : TodoStore)
    (hno : (effectivePage pageStr - 1) * effectivePerPage perPageStr
        + effectivePerPage perPageStr < 2 ^ 63) :
    TodoAPI.GetTodos baseURL s pageStr perPageStr
      = some (200,
          { Todos := specPageSlice baseURL s.GetAll (effectivePage pageStr)
                (effectivePerPage perPageStr),
            Meta :=
              { Total := (s.GetAll.length : Int),
                Count := (specPageSlice baseURL s.GetAll (effectivePage pageStr)
                    (effectivePerPage perPageStr)).length,
                Page := effectivePage pageStr,
                PerPage := effectivePerPage perPageStr,
                TotalPages :=
                  if Int.tdiv ((s.GetAll.length : Int) + effectivePerPage perPageStr - 1)
                      (effectivePerPage perPageStr) = 0 then 1
                  else
                    Int.tdiv ((s.GetAll.length : Int) + effectivePerPage perPageStr - 1)
                      (effectivePerPage perPageStr) },
            Links := buildCollectionLinks baseURL (effectivePage pageStr)
                (effectivePerPage perPageStr) (s.GetAll.length : Int) }) := by
  have hpg := one_le_effectivePage pageStr
  have hpp := one_le_effectivePerPage perPageStr
  simp only [TodoAPI.GetTodos, specPageSlice, specClampedStart, specClampedStop,
    Service.ListTodos]
  set pg := effectivePage pageStr with hpgdef
  set pp := effectivePerPage perPageStr with hppdef
  set l := s.GetAll with hldef
  set total := (l.length : Int) with htotaldef
  have htot0 : 0 ≤ total := by omega
  obtain ⟨k, hk0, hkdef⟩ : ∃ k, 0 ≤ k ∧ (pg - 1) * pp = k :=
    ⟨(pg - 1) * pp, mul_nonneg (by omega) (by omega), rfl⟩
  rw [hkdef] at hno ⊢
  rw [wrap64_eq_self k (by omega) (by omega)]
  rw [wrap64_eq_self (k + pp) (by omega) (by omega)]
  have hg : ¬ ((if k ≥ total then total else k) < 0) := by
    split_ifs <;> omega
  rw [if_neg hg]
  have e1 : (if k ≥ total then total else k) = max 0 (min k total) := by
    split_ifs <;> omega
  have e2 : (if k + pp > total then total else k + pp)
      = max 0 (min (k + pp) total) := by
    split_ifs <;> omega
  rw [e1, e2]
  by_cases hlt : max 0 (min k total) < total
  · rw [if_pos hlt]
  · rw [if_neg hlt]
    have hmax : max 0 (min k total) = total := by omega
    rw [hmax]
    have h3 : total.toNat = l.length := by omega
    rw [h3, List.drop_length]
    simp

/-- C3: evaluation of the handler at the failing input.  The page value
9223372036854775807 (= 2^63 - 1) is accepted by the parser, so the
effective page is 2^63 - 1; the int64 slice arithmetic wraps
`start = (page-1)*10` to -20, the copy loop is entered with a negative
index and the handler panics (`none`, a 500 through the transport's
Recoverer) even on a fresh empty store — while the spec's clamped
slicing policy expects an empty 200 page. -/
theorem C3_overflow_panic :
    Atoi "9223372036854775807" = some (2 ^ 63 - 1) ∧
    effectivePage "9223372036854775807" = 2 ^ 63 - 1 ∧
    effectivePerPage "" = 10 ∧
    wrap64 ((2 ^ 63 - 1 - 1) * 10) = -20 ∧
    TodoAPI.GetTodos "http://localhost:8000" NewTodoStore
        "9223372036854775807" "" = none ∧
    specPageSlice "http://localhost:8000" NewTodoStore.GetAll
        (effectivePage "9223372036854775807") (effectivePerPage "") = [] := by
  refine ⟨by decide, by decide, by decide, by decide, by decide, by decide⟩

/-- C10: `NewRouter` seeds the fresh store with exactly the three sample
todos, ids 1–3 with the fixed titles and `Completed = false`; the first
List on the seeded store reports total 3, and the next created record
receives id 4. -/
theorem C10_router_seed (now1 now2 now3 : Nat) (baseURL : String)
    (input : TodoInput) (now : Nat) :
    (NewRouterStore now1 now2 now3).GetByID 1
        = some ⟨1, "Learn Go", "Master the Go programming language", false, now1, {}⟩ ∧
    (NewRouterStore now1 now2 now3).GetByID 2
        = some ⟨2, "Build REST API", "Create a HATEOAS-compliant REST API", false, now2, {}⟩ ∧
    (NewRouterStore now1 now2 now3).GetByID 3
        = some ⟨3, "Write Tests", "Add comprehensive test coverage", false, now3, {}⟩ ∧
    (NewRouterStore now1 now2 now3).GetAll.length = 3 ∧
    (TodoAPI.GetTodos baseURL (NewRouterStore now1 now2 now3) "" "").map
        (fun r => r.2.Meta.Total) = some 3 ∧
    ((NewRouterStore now1 now2 now3).Create input now).1.ID = 4 := by
  refine ⟨?_, ?_, ?_, rfl, rfl, rfl⟩ <;>
    simp [NewRouterStore, NewTodoStore, Service.CreateTodo, TodoStore.Create,
      TodoMap.insert, TodoStore.GetByID, TodoMap.lookup]

/-- C6 (amended): an unparsable id yields exactly 400 "Invalid todo ID"
on every item endpoint; a well-formed id with no matching record yields
exactly 404 "Todo not found" naming the id on the GET, DELETE and
PATCH-complete endpoints, and on PUT whenever the body decodes with a
non-empty title (on PUT, body errors take precedence over the 404); and
every structured error response carries the back-to-collection todos
link. -/
theorem C6_item_errors (baseURL idStr : String) (s : TodoStore)
    (body : Option TodoInput) :
    (Atoi idStr = none →
      TodoAPI.GetTodo baseURL s idStr
          = TodoAPI.sendError baseURL 400 "Invalid todo ID" "The provided ID must be a valid integer" ∧
      (TodoAPI.UpdateTodo baseURL s idStr body).1
          = TodoAPI.sendError baseURL 400 "Invalid todo ID" "The provided ID must be a valid integer" ∧
      (TodoAPI.CompleteTodo baseURL s idStr).1
          = TodoAPI.sendError baseURL 400 "Invalid todo ID" "The provided ID must be a valid integer" ∧
      (TodoAPI.DeleteTodo baseURL s idStr).1
          = TodoAPI.sendError baseURL 400 "Invalid todo ID" "The provided ID must be a valid integer") ∧
    (∀ id : Int, Atoi idStr = some id → s.GetByID id = none →
      TodoAPI.GetTodo baseURL s idStr
          = TodoAPI.sendError baseURL 404 "Todo not found" ("Todo with ID " ++ toString id ++ " does not exist") ∧
      (TodoAPI.CompleteTodo baseURL s idStr).1
          = TodoAPI.sendError baseURL 404 "Todo not found" ("Todo with ID " ++ toString id ++ " does not exist") ∧
      (TodoAPI.DeleteTodo baseURL s idStr).1
          = TodoAPI.sendError baseURL 404 "Todo not found" ("Todo with ID " ++ toString id ++ " does not exist")) ∧
    (∀ (id : Int) (input : TodoInput), Atoi idStr = some id →
      s.GetByID id = none → body = some input → input.Title ≠ "" →
      (TodoAPI.UpdateTodo baseURL s idStr body).1
          = TodoAPI.sendError baseURL 404 "Todo not found" ("Todo with ID " ++ toString id ++ " does not exist")) ∧
    (buildErrorLinks baseURL).Todos = some ⟨baseURL ++ "/todos", "GET"⟩ ∧
    (∀ (st st' : Nat) (e m : String) (b : ErrorResponse),
      TodoAPI.sendError baseURL st e m = .err st' b → b.Links.Todos.isSome) := by
  refine ⟨?_, ?_, ?_, rfl, ?_⟩
  · intro h
    refine ⟨?_, ?_, ?_, ?_⟩ <;>
      simp [TodoAPI.GetTodo, TodoAPI.UpdateTodo, TodoAPI.CompleteTodo,
        TodoAPI.DeleteTodo, h]
  · intro id hid hnone
    rw [TodoStore.GetByID] at hnone
    refine ⟨?_, ?_, ?_⟩ <;>
      simp [TodoAPI.GetTodo, TodoAPI.CompleteTodo, TodoAPI.DeleteTodo,
        Service.GetTodo, Service.CompleteTodo, Service.DeleteTodo,
        TodoStore.GetByID, TodoStore.Complete, TodoStore.Delete, hid, hnone]
  · intro id input hid hnone hbody htitle
    rw [TodoStore.GetByID] at hnone
    simp [TodoAPI.UpdateTodo, Service.UpdateTodo, TodoStore.Update, hid, hbody,
      htitle, hnone]
  · intro st st' e m b heq
    rw [TodoAPI.sendError] at heq
    cases heq
    simp [buildErrorLinks]

/-- C6 counterexample: a PUT request to the item endpoint with the
well-formed id 5, no record with id 5, and an undecodable body answers
400 "Invalid JSON" — not the 404 "Todo not found" the claim demands for
every item-endpoint request with a well-formed unmatched id. -/
theorem C6_counterexample :
    Atoi "5" = some 5 ∧
    NewTodoStore.GetByID 5 = none ∧
    (TodoAPI.UpdateTodo "http://localhost:8000" NewTodoStore "5" none).1
        = HandlerResult.err 400
            { Error := "Invalid JSON", Message := "Request body must be valid JSON",
              Links := buildErrorLinks "http://localhost:8000" } ∧
    (TodoAPI.UpdateTodo "http://localhost:8000" NewTodoStore "5" none).1
        ≠ TodoAPI.sendError "http://localhost:8000" 404 "Todo not found"
            "Todo with ID 5 does not exist" := by
  refine ⟨by decide, rfl, rfl, by decide⟩

/-- C6 witness: a GET for the absent id 7 on the fresh store answers
the 404 error naming id 7. -/
theorem C6_item_errors_witness :
    TodoAPI.GetTodo "http://localhost:8000" NewTodoStore "7"
      = TodoAPI.sendError "http://localhost:8000" 404 "Todo not found"
          ("Todo with ID " ++ toString (7 : Int) ++ " does not exist") := by
  exact ((C6_item_errors "http://localhost:8000" "7" NewTodoStore none).2.1
    7 (by decide) rfl).1
